import Mathlib

/-!
Verification of the ownership-scoped CRUD contract of the task-manager
backend. The business-logic functions are shallowly embedded from the
repository source (`get_user_notes`, `can_user_access_note`,
`create_note_flow`, `delete_note_flow`, `validate_username`,
`validate_note_data`, `process_user_data`, `safe_get_title`,
`validate_content_length`). Python strings are modelled as `List Char`
(`PyStr`), with `pyStrip` mirroring the Python `str.strip` and `pyIsalnum`
mirroring `str.isalnum`. Python dict payloads with optional keys are
modelled as structures of `Option` fields, with `pyGet` mirroring
`dict.get(key, "")`. Field-level error mappings are association lists in
insertion order.
-/

namespace TaskManager

/-- Python strings, modelled as character lists. -/
abbrev PyStr := List Char

/-- The Python function `str.strip()`: remove leading and trailing whitespace. -/
def pyStrip (s : PyStr) : PyStr :=
  ((s.dropWhile Char.isWhitespace).reverse.dropWhile Char.isWhitespace).reverse

/-- The Python function `str.isalnum()`: nonempty and all characters alphanumeric. -/
def pyIsalnum (s : PyStr) : Bool :=
  !s.isEmpty && s.all Char.isAlphanum

/-- The Python expression `d.get(key, "")` on an optional dict entry. -/
def pyGet (o : Option PyStr) : PyStr := o.getD []

/-- A user identity (mirrors the mock users of the source: an `id` and a
`username`). -/
structure User where
  id : Nat
  username : PyStr
deriving DecidableEq

/-- A note record (mirrors the mock notes of the source: `id`, `title`,
`content`, and the owner reference `author_id`). -/
structure Note where
  id : Nat
  title : PyStr
  content : PyStr
  author_id : Nat
deriving DecidableEq

/-- A note payload (a Python dict with optional `title`, `content` and a
client-supplied `author` entry). -/
structure NoteData where
  title : Option PyStr := none
  content : Option PyStr := none
  author : Option Nat := none
deriving DecidableEq

/-- From `test_users_can_only_access_own_notes`:
`get_user_notes(user, all_notes)` returns
`[note for note in all_notes if note.author_id == user.id]`. -/
def get_user_notes (user : User) (all_notes : List Note) : List Note :=
  all_notes.filter (fun note => note.author_id == user.id)

/-- From `test_user_cannot_delete_others_notes`:
`can_user_access_note(user, note_id, all_notes)`. -/
def can_user_access_note (user : User) (note_id : Nat) (all_notes : List Note) : Bool :=
  let accessible_notes := all_notes.filter (fun n => n.author_id == user.id)
  accessible_notes.any (fun n => n.id == note_id)

/-- Result record of `delete_note_flow` (`success`, `message`). -/
structure DeleteResult where
  success : Bool
  message : String
deriving DecidableEq

/-- From `test_note_deletion_flow`: `delete_note_flow(user, note_id,
available_notes)` filters the store to the notes owned by the user, finds the
first of those whose `id` equals `note_id`, and on a match removes it
from the store (`list.remove` removes the first equal element, modelled
by `List.erase`); otherwise it reports "Note not found" and leaves the
store unchanged. The pair returned is (result, store after the call). -/
def delete_note_flow (user : User) (note_id : Nat) (available_notes : List Note) :
    DeleteResult × List Note :=
  let user_notes := available_notes.filter (fun n => n.author_id == user.id)
  match user_notes.find? (fun n => n.id == note_id) with
  | some note_to_delete =>
      (⟨true, "Note deleted"⟩, available_notes.erase note_to_delete)
  | none => (⟨false, "Note not found"⟩, available_notes)

/-- From `test_note_validation`: `validate_note_data(data)` returns
`(is_valid, errors)` where `errors` maps each blank field (title/content,
blank after stripping) to a message list, in that insertion order. -/
def validate_note_data (data : NoteData) : Bool × List (String × List String) :=
  let errors :=
    (if pyStrip (pyGet data.title) = [] then [("title", ["Title is required"])] else []) ++
    (if pyStrip (pyGet data.content) = [] then [("content", ["Content is required"])] else [])
  (errors.length == 0, errors)

/-- From `test_username_validation`: `validate_username(username)` collects
errors in order (too short, too long, not alphanumeric) and returns
`(is_valid, errors)`. -/
def validate_username (username : PyStr) : Bool × List String :=
  let errors :=
    (if username.length < 3 then ["Username too short"] else []) ++
    (if username.length > 20 then ["Username too long"] else []) ++
    (if !pyIsalnum username then ["Username must be alphanumeric"] else [])
  (errors.length == 0, errors)

/-- A registration payload (`username` plus an optional `password` entry). -/
structure UserData where
  username : PyStr
  password : Option PyStr := none
deriving DecidableEq

/-- From `test_password_hashing_logic`: `process_user_data(data)` copies
the payload and, when a password entry is present, replaces it by
`"hashed_" + password`. -/
def process_user_data (d : UserData) : UserData :=
  match d.password with
  | some p => { d with password := some ("hashed_".data ++ p) }
  | none => d

/-- From `test_empty_data_handling`: `safe_get_title(note_data)` returns
the stripped title, or the empty string when the payload is falsy
(`None` or an empty dict) or the title entry is absent. -/
def safe_get_title (note_data : Option NoteData) : PyStr :=
  match note_data with
  | some d => pyStrip (pyGet d.title)
  | none => []

/-- From `test_large_content_handling`: the local helper
`validate_content_length(content, max_length=5000)`. -/
def validate_content_length (content : PyStr) (max_length : Nat := 5000) : Bool :=
  content.length ≤ max_length

/-- A serializer as exercised by `test_full_note_creation_flow`: a validity
verdict, the validated payload, and a field-level error mapping. -/
structure Serializer where
  is_valid : Bool
  validated_data : NoteData
  errors : List (String × List String) := []
deriving DecidableEq

/-- Outcome record of `create_note_flow`. -/
structure CreateResult where
  success : Bool
  note : Option NoteData := none
  errors : List (String × List String) := []
deriving DecidableEq

/-- From `test_full_note_creation_flow`: `create_note_flow(request,
serializer)` — on a valid serializer, copies the validated data, overwrites
its `author` entry with the requesting user (`request.user`), and succeeds;
otherwise it fails with the serializer errors. -/
def create_note_flow (user : User) (serializer : Serializer) : CreateResult :=
  if serializer.is_valid then
    { success := true, note := some { serializer.validated_data with author := some user.id } }
  else
    { success := false, errors := serializer.errors }

/-- From `test_read_only_fields_logic`: the serializer field list. -/
def all_fields : List String := ["id", "title", "content", "author", "created_at"]

/-- From `test_read_only_fields_logic`: the read-only fields. -/
def read_only_fields : List String := ["id", "created_at", "author"]

/-- From `test_read_only_fields_logic`: the writable fields are those not
read-only. -/
def writable_fields : List String :=
  all_fields.filter (fun f => !read_only_fields.contains f)

/-- A persisted user record of the Account Registry: identifier, username,
and the hashed credential. -/
structure StoredUser where
  id : Nat
  username : PyStr
  password_hash : PyStr
deriving DecidableEq

/-- Public result of `register`: the identifier of the created user and username
(never the credential), or a field-level error mapping. -/
inductive RegisterResult where
  | ok (id : Nat) (username : PyStr)
  | err (errors : List (String × List String))
deriving DecidableEq

/-- Modelled from the spec: the Account Registry operation
`register(username, password)` — its view/serializer code is not under
`src/`, only its tests are. Per the spec, validation applies in order:
username length must be in [3, 20] and the username must be alphanumeric
(both checked by the source helper `validate_username`, in its order),
then the username must not already exist. On success a new User record is
persisted with the credential transformed by a one-way hash (shape taken
from the source helper `process_user_data`), and the result is the public
representation (identifier, username). Failures name the `username` field. -/
def register (username password : PyStr) (users : List StoredUser) :
    RegisterResult × List StoredUser :=
  if !(validate_username username).1 then
    (.err [("username", (validate_username username).2)], users)
  else if users.any (fun u => u.username == username) then
    (.err [("username", ["A user with that username already exists"])], users)
  else
    (.ok (users.length + 1) username,
      users ++ [⟨users.length + 1, username, "hashed_".data ++ password⟩])

/-! ### Helper lemmas -/

/-- Stripping yields the empty string exactly when every character is
whitespace. -/
theorem pyStrip_eq_nil_iff (s : PyStr) :
    pyStrip s = [] ↔ ∀ c ∈ s, c.isWhitespace := by
  unfold pyStrip
  rw [List.reverse_eq_nil_iff, List.dropWhile_eq_nil_iff]
  constructor
  · intro h c hc
    have hsplit := List.takeWhile_append_dropWhile (p := Char.isWhitespace) (l := s)
    rw [← hsplit] at hc
    rcases List.mem_append.mp hc with htk | hdp
    · exact List.mem_takeWhile_imp htk
    · exact h c (List.mem_reverse.mpr hdp)
  · intro h c hc
    exact h c ((List.dropWhile_sublist _).subset (List.mem_reverse.mp hc))

/-- Distinct identifiers make `Note.id` injective on the store. -/
theorem note_id_inj {notes : List Note} (hids : (notes.map Note.id).Nodup)
    {a b : Note} (ha : a ∈ notes) (hb : b ∈ notes) (h : a.id = b.id) : a = b :=
  List.inj_on_of_nodup_map hids ha hb h

/-- `find?` returns a witness when some member satisfies the predicate. -/
theorem find?_some_of_mem {α : Type} {p : α → Bool} {l : List α} {a : α}
    (ha : a ∈ l) (hpa : p a = true) :
    ∃ b, l.find? p = some b ∧ p b = true ∧ b ∈ l := by
  have hs : (l.find? p).isSome := List.find?_isSome.mpr ⟨a, ha, hpa⟩
  rcases Option.isSome_iff_exists.mp hs with ⟨b, hb⟩
  exact ⟨b, hb, List.find?_some hb, List.mem_of_find?_eq_some hb⟩

/-- The acceptance verdict of `validate_username`, characterized. -/
theorem validate_username_true_iff (un : PyStr) :
    (validate_username un).1 = true ↔
      3 ≤ un.length ∧ un.length ≤ 20 ∧ pyIsalnum un = true := by
  by_cases h1 : un.length < 3 <;> by_cases h2 : un.length > 20 <;>
    by_cases h3 : pyIsalnum un = true <;>
      simp [validate_username, h1, h2, h3] <;> omega

/-- Both-fields-non-blank inputs are accepted by `validate_note_data`. -/
theorem validate_note_data_accepts {t c : PyStr}
    (htb : pyStrip t ≠ []) (hcb : pyStrip c ≠ []) :
    (validate_note_data ⟨some t, some c, none⟩).1 = true := by
  simp [validate_note_data, pyGet, htb, hcb]

/-! ### Claim theorems -/

/-- C1: `get_user_notes(U, notes)` returns exactly the notes whose owner
identifier (`author_id`) equals `U.id`: no note of another owner is ever
included and every note of `U` is included; and the result is a sublist of
the store, so the insertion order of the underlying collection is
preserved. -/
theorem get_user_notes_exactly_owned (u : User) (notes : List Note) :
    (∀ n, n ∈ get_user_notes u notes ↔ n ∈ notes ∧ n.author_id = u.id) ∧
    (get_user_notes u notes).Sublist notes := by
  refine ⟨fun n => ?_, List.filter_sublist notes⟩
  simp [get_user_notes, List.mem_filter]

/-- C6: note validation accepts an input iff both title and content are
non-blank after trimming; on rejection the error keys are exactly the
blank fields, in insertion order, each mapped to a nonempty human-readable
message list. -/
theorem validate_note_data_accepts_iff (d : NoteData) :
    ((validate_note_data d).1 = true ↔
      pyStrip (pyGet d.title) ≠ [] ∧ pyStrip (pyGet d.content) ≠ []) ∧
    ((validate_note_data d).2.map Prod.fst =
      (if pyStrip (pyGet d.title) = [] then ["title"] else []) ++
      (if pyStrip (pyGet d.content) = [] then ["content"] else [])) ∧
    (∀ f msgs, (f, msgs) ∈ (validate_note_data d).2 → msgs ≠ []) := by
  by_cases h1 : pyStrip (pyGet d.title) = [] <;>
    by_cases h2 : pyStrip (pyGet d.content) = [] <;>
      simp [validate_note_data, h1, h2] <;>
        rintro f msgs (⟨-, rfl⟩ | ⟨-, rfl⟩) <;> simp

/-- C10: title extraction is total over absent inputs: a `None` payload,
an empty payload, and a missing or whitespace-only title all yield the
empty string (`safe_get_title` is a total Lean function, so it never
raises); and on a blank title `validate_note_data` reports a `title` field
error rather than failing. -/
theorem safe_get_title_total :
    safe_get_title none = [] ∧
    safe_get_title (some {}) = [] ∧
    safe_get_title (some { title := some "  ".data }) = [] ∧
    safe_get_title (some { title := some "Valid Title".data }) = "Valid Title".data ∧
    (∀ d : NoteData, pyStrip (pyGet d.title) = [] →
      (validate_note_data d).1 = false ∧
      "title" ∈ (validate_note_data d).2.map Prod.fst) := by
  refine ⟨rfl, rfl, by decide, by decide, ?_⟩
  intro d hd
  by_cases hc : pyStrip (pyGet d.content) = [] <;>
    simp [validate_note_data, hd, hc]

/-- C2: for distinct users, deleting a note owned by the other user
returns the "Note not found" outcome and leaves the store unchanged (the
note stays persisted); moreover the outcome is identical to the one
produced on a store in which no note with that identifier exists at all,
so the two cases are indistinguishable to the caller. -/
theorem delete_other_users_note_not_found (u1 u2 : User) (n : Note) (notes : List Note)
    (hne : u1.id ≠ u2.id) (hmem : n ∈ notes) (hown : n.author_id = u2.id)
    (hids : (notes.map Note.id).Nodup) :
    delete_note_flow u1 n.id notes = (⟨false, "Note not found"⟩, notes) ∧
    n ∈ (delete_note_flow u1 n.id notes).2 ∧
    ∀ other : List Note, (∀ m ∈ other, m.id ≠ n.id) →
      (delete_note_flow u1 n.id other).1 = (delete_note_flow u1 n.id notes).1 := by
  have hnone : (notes.filter (fun m => m.author_id == u1.id)).find?
      (fun m => m.id == n.id) = none := by
    rw [List.find?_eq_none]
    intro m hm
    rcases List.mem_filter.mp hm with ⟨hmn, hma⟩
    simp only [beq_iff_eq] at hma ⊢
    intro hid
    have hmeq := note_id_inj hids hmn hmem hid
    rw [hmeq, hown] at hma
    exact hne hma.symm
  have heq : delete_note_flow u1 n.id notes = (⟨false, "Note not found"⟩, notes) := by
    simp only [delete_note_flow, hnone]
  refine ⟨heq, by rw [heq]; exact hmem, ?_⟩
  intro other hother
  have hnone2 : (other.filter (fun m => m.author_id == u1.id)).find?
      (fun m => m.id == n.id) = none := by
    rw [List.find?_eq_none]
    intro m hm
    simp only [beq_iff_eq]
    exact hother m (List.mem_filter.mp hm).1
  simp only [delete_note_flow, hnone, hnone2]

/-- C2 witness: a user with identifier 1 cannot delete note 10 owned by
user 2; the store keeps the note. -/
theorem delete_other_users_note_not_found_witness :
    delete_note_flow ⟨1, "user1".data⟩ 10 [⟨10, "T".data, "C".data, 2⟩] =
      (⟨false, "Note not found"⟩, [⟨10, "T".data, "C".data, 2⟩]) :=
  (delete_other_users_note_not_found ⟨1, "user1".data⟩ ⟨2, "user2".data⟩
    ⟨10, "T".data, "C".data, 2⟩ [⟨10, "T".data, "C".data, 2⟩]
    (by decide) (by decide) (by decide) (by decide)).1

/-- C4: delete is a one-shot, terminal transition: the first delete of a
note owned by the requester succeeds and removes exactly that note; the
second delete of the same identifier on the resulting store reports "Note
not found" and leaves the store unchanged; and the resulting store is a
sublist of the original, so delete never recreates an identifier. -/
theorem delete_one_shot (u : User) (n : Note) (notes : List Note)
    (hmem : n ∈ notes) (hown : n.author_id = u.id)
    (hids : (notes.map Note.id).Nodup) :
    (delete_note_flow u n.id notes).1 = ⟨true, "Note deleted"⟩ ∧
    (delete_note_flow u n.id notes).2 = notes.erase n ∧
    delete_note_flow u n.id (notes.erase n) =
      (⟨false, "Note not found"⟩, notes.erase n) ∧
    (notes.erase n).Sublist notes := by
  have hnfil : n ∈ notes.filter (fun m => m.author_id == u.id) :=
    List.mem_filter.mpr ⟨hmem, by simp [hown]⟩
  obtain ⟨m, hfind, hpm, hmmem⟩ :=
    find?_some_of_mem (p := fun x => x.id == n.id) hnfil (by simp)
  have hmnotes : m ∈ notes := (List.mem_filter.mp hmmem).1
  have hpm2 : m.id = n.id := by simpa using hpm
  have hmeq : m = n := note_id_inj hids hmnotes hmem hpm2
  subst hmeq
  have hnodup : notes.Nodup := List.Nodup.of_map _ hids
  have hnone : ((notes.erase m).filter (fun x => x.author_id == u.id)).find?
      (fun x => x.id == m.id) = none := by
    rw [List.find?_eq_none]
    intro x hx
    rcases List.mem_filter.mp hx with ⟨hxe, -⟩
    rcases (List.Nodup.mem_erase_iff hnodup).mp hxe with ⟨hxm, hxnotes⟩
    simp only [beq_iff_eq]
    intro hid
    exact hxm (note_id_inj hids hxnotes hmnotes hid)
  refine ⟨?_, ?_, ?_, List.erase_sublist _ _⟩
  · simp only [delete_note_flow, hfind]
  · simp only [delete_note_flow, hfind]
  · simp only [delete_note_flow, hnone]

/-- C4 witness: in a one-note store, the owner deletes the note, then a
second delete of the same identifier reports "Note not found". -/
theorem delete_one_shot_witness :
    (delete_note_flow ⟨1, "ilyes".data⟩ 10 [⟨10, "T".data, "C".data, 1⟩]).1 =
      ⟨true, "Note deleted"⟩ ∧
    (delete_note_flow ⟨1, "ilyes".data⟩ 10 [⟨10, "T".data, "C".data, 1⟩]).2 =
      ([⟨10, "T".data, "C".data, 1⟩] : List Note).erase ⟨10, "T".data, "C".data, 1⟩ ∧
    delete_note_flow ⟨1, "ilyes".data⟩ 10
        (([⟨10, "T".data, "C".data, 1⟩] : List Note).erase ⟨10, "T".data, "C".data, 1⟩) =
      (⟨false, "Note not found"⟩,
        ([⟨10, "T".data, "C".data, 1⟩] : List Note).erase ⟨10, "T".data, "C".data, 1⟩) ∧
    (([⟨10, "T".data, "C".data, 1⟩] : List Note).erase
        ⟨10, "T".data, "C".data, 1⟩).Sublist [⟨10, "T".data, "C".data, 1⟩] :=
  delete_one_shot ⟨1, "ilyes".data⟩ ⟨10, "T".data, "C".data, 1⟩
    [⟨10, "T".data, "C".data, 1⟩] (by decide) (by decide) (by decide)

/-- C9: frame property of delete: when it succeeds, the note removed is
one with the requested identifier owned by the requester; exactly one
occurrence of it leaves the store (its multiset count drops by one), every
other note keeps its count, and the rest of the store is untouched (the
new store is `erase` of the old one and a sublist of it). -/
theorem delete_frame (u : User) (note_id : Nat) (notes : List Note)
    (hsucc : (delete_note_flow u note_id notes).1.success = true) :
    ∃ n ∈ notes, n.id = note_id ∧ n.author_id = u.id ∧
      (delete_note_flow u note_id notes).2 = notes.erase n ∧
      (delete_note_flow u note_id notes).2.count n + 1 = notes.count n ∧
      (∀ m, m ≠ n → (delete_note_flow u note_id notes).2.count m = notes.count m) ∧
      (delete_note_flow u note_id notes).2.Sublist notes := by
  cases hfind : (notes.filter (fun m => m.author_id == u.id)).find?
      (fun m => m.id == note_id) with
  | none =>
      exfalso
      simp only [delete_note_flow, hfind] at hsucc
      exact Bool.false_ne_true hsucc
  | some n =>
      have hp := List.find?_some hfind
      have hmemf := List.mem_of_find?_eq_some hfind
      rcases List.mem_filter.mp hmemf with ⟨hmem, hauth⟩
      simp only [beq_iff_eq] at hp hauth
      have hstate : (delete_note_flow u note_id notes).2 = notes.erase n := by
        simp only [delete_note_flow, hfind]
      refine ⟨n, hmem, hp, hauth, hstate, ?_, ?_, ?_⟩
      · rw [hstate, List.count_erase_self]
        have hpos : 0 < notes.count n := List.count_pos_iff.mpr hmem
        omega
      · intro m hm
        rw [hstate, List.count_erase_of_ne hm]
      · rw [hstate]
        exact List.erase_sublist _ _

/-- C9 witness: a successful delete in a two-note store. -/
theorem delete_frame_witness :
    ∃ n ∈ ([⟨10, "T".data, "C".data, 1⟩, ⟨11, "U".data, "D".data, 2⟩] : List Note),
      n.id = 10 ∧ n.author_id = (1 : Nat) ∧
      (delete_note_flow ⟨1, "ilyes".data⟩ 10
        [⟨10, "T".data, "C".data, 1⟩, ⟨11, "U".data, "D".data, 2⟩]).2 =
        ([⟨10, "T".data, "C".data, 1⟩, ⟨11, "U".data, "D".data, 2⟩] : List Note).erase n ∧
      (delete_note_flow ⟨1, "ilyes".data⟩ 10
        [⟨10, "T".data, "C".data, 1⟩, ⟨11, "U".data, "D".data, 2⟩]).2.count n + 1 =
        ([⟨10, "T".data, "C".data, 1⟩, ⟨11, "U".data, "D".data, 2⟩] : List Note).count n ∧
      (∀ m, m ≠ n →
        (delete_note_flow ⟨1, "ilyes".data⟩ 10
          [⟨10, "T".data, "C".data, 1⟩, ⟨11, "U".data, "D".data, 2⟩]).2.count m =
          ([⟨10, "T".data, "C".data, 1⟩, ⟨11, "U".data, "D".data, 2⟩] : List Note).count m) ∧
      (delete_note_flow ⟨1, "ilyes".data⟩ 10
        [⟨10, "T".data, "C".data, 1⟩, ⟨11, "U".data, "D".data, 2⟩]).2.Sublist
        [⟨10, "T".data, "C".data, 1⟩, ⟨11, "U".data, "D".data, 2⟩] :=
  delete_frame ⟨1, "ilyes".data⟩ 10
    [⟨10, "T".data, "C".data, 1⟩, ⟨11, "U".data, "D".data, 2⟩] (by decide)

/-- C3: create assigns ownership from the authenticated user: for any two
valid inputs that differ only in a client-supplied `author` field, both
created notes carry `author = some user.id` and the two outcomes are
identical; `author` is not a writable serializer field while `title` and
`content` are. -/
theorem create_assigns_owner (u : User) (s1 s2 : Serializer)
    (h1 : s1.is_valid = true) (h2 : s2.is_valid = true)
    (ht : s1.validated_data.title = s2.validated_data.title)
    (hc : s1.validated_data.content = s2.validated_data.content) :
    ((create_note_flow u s1).note.map NoteData.author = some (some u.id)) ∧
    ((create_note_flow u s2).note.map NoteData.author = some (some u.id)) ∧
    (create_note_flow u s1).note = (create_note_flow u s2).note ∧
    "author" ∉ writable_fields ∧ "title" ∈ writable_fields ∧
    "content" ∈ writable_fields := by
  refine ⟨?_, ?_, ?_, by decide, by decide, by decide⟩
  · simp [create_note_flow, h1]
  · simp [create_note_flow, h2]
  · simp [create_note_flow, h1, h2, ht, hc]

/-- C3 witness: two valid payloads, one without and one with a
client-supplied author identifier 99, both yield a note owned by user 5. -/
theorem create_assigns_owner_witness :
    ((create_note_flow ⟨5, "testuser".data⟩
        ⟨true, ⟨some "T".data, some "C".data, none⟩, []⟩).note.map NoteData.author =
      some (some 5)) ∧
    ((create_note_flow ⟨5, "testuser".data⟩
        ⟨true, ⟨some "T".data, some "C".data, some 99⟩, []⟩).note.map NoteData.author =
      some (some 5)) ∧
    ((create_note_flow ⟨5, "testuser".data⟩
        ⟨true, ⟨some "T".data, some "C".data, none⟩, []⟩).note =
      (create_note_flow ⟨5, "testuser".data⟩
        ⟨true, ⟨some "T".data, some "C".data, some 99⟩, []⟩).note) ∧
    "author" ∉ writable_fields ∧ "title" ∈ writable_fields ∧
    "content" ∈ writable_fields :=
  create_assigns_owner ⟨5, "testuser".data⟩
    ⟨true, ⟨some "T".data, some "C".data, none⟩, []⟩
    ⟨true, ⟨some "T".data, some "C".data, some 99⟩, []⟩ rfl rfl rfl rfl

/-- C5: registration validates the username by length in [3, 20] and
alphanumeric characters (via the source helper `validate_username`, which
runs before the uniqueness check), then by the username not existing yet;
registering the same username twice succeeds the first time and the second
call fails with a validation error naming the `username` field, leaving
the store unchanged. -/
theorem register_username_rules (username p1 p2 : PyStr) (users : List StoredUser)
    (hvalid : (validate_username username).1 = true)
    (hfresh : ∀ u ∈ users, u.username ≠ username) :
    ((validate_username username).1 = true ↔
      3 ≤ username.length ∧ username.length ≤ 20 ∧ pyIsalnum username = true) ∧
    (∀ un q us, (validate_username un).1 = false →
      register un q us = (.err [("username", (validate_username un).2)], us)) ∧
    (register username p1 users).1 = .ok (users.length + 1) username ∧
    (∃ msgs, msgs ≠ [] ∧
      (register username p2 (register username p1 users).2).1 =
        .err [("username", msgs)]) ∧
    (register username p2 (register username p1 users).2).2 =
      (register username p1 users).2 := by
  have hanyf : users.any (fun u => u.username == username) = false := by
    rw [List.any_eq_false]
    intro u hu
    simp [hfresh u hu]
  have hreg1 : register username p1 users =
      (.ok (users.length + 1) username,
        users ++ [⟨users.length + 1, username, "hashed_".data ++ p1⟩]) := by
    simp [register, hvalid, hanyf]
  have hany2 : (users ++ [(⟨users.length + 1, username,
      "hashed_".data ++ p1⟩ : StoredUser)]).any (fun u => u.username == username) = true := by
    rw [List.any_eq_true]
    exact ⟨⟨users.length + 1, username, "hashed_".data ++ p1⟩,
      List.mem_append_right _ (List.mem_singleton.mpr rfl), by simp⟩
  refine ⟨validate_username_true_iff username, ?_, by rw [hreg1], ?_, ?_⟩
  · intro un q us hinvalid
    simp [register, hinvalid]
  · exact ⟨["A user with that username already exists"], by simp,
      by rw [hreg1]; simp [register, hvalid, hany2]⟩
  · rw [hreg1]
    simp [register, hvalid, hany2]

/-- C5 witness: registering the fresh username ilyes2 on an empty store
succeeds; registering it again fails naming the `username` field. -/
theorem register_username_rules_witness :
    ((validate_username "ilyes2".data).1 = true ↔
      3 ≤ "ilyes2".data.length ∧ "ilyes2".data.length ≤ 20 ∧
        pyIsalnum "ilyes2".data = true) ∧
    (∀ un q us, (validate_username un).1 = false →
      register un q us = (.err [("username", (validate_username un).2)], us)) ∧
    (register "ilyes2".data "mypassword".data []).1 = .ok 1 "ilyes2".data ∧
    (∃ msgs, msgs ≠ [] ∧
      (register "ilyes2".data "otherpass".data
        (register "ilyes2".data "mypassword".data []).2).1 =
        .err [("username", msgs)]) ∧
    (register "ilyes2".data "otherpass".data
      (register "ilyes2".data "mypassword".data []).2).2 =
      (register "ilyes2".data "mypassword".data []).2 :=
  register_username_rules "ilyes2".data "mypassword".data "otherpass".data []
    (by decide) (by simp)

/-- C7: after registration processing, the credential is stored only as a
one-way transform of the raw password: the processed password is the hash
of the plaintext and never equal to it, the username is untouched, and the
public result of `register` is independent of the password, so it never
contains the credential. -/
theorem password_hashed_never_plaintext (d : UserData) (p : PyStr)
    (hp : d.password = some p) :
    (process_user_data d).password = some ("hashed_".data ++ p) ∧
    (process_user_data d).password ≠ d.password ∧
    (process_user_data d).username = d.username ∧
    (∀ un q1 q2 us, (register un q1 us).1 = (register un q2 us).1) := by
  refine ⟨by simp [process_user_data, hp], ?_, ?_, ?_⟩
  · simp only [process_user_data, hp]
    intro h
    have hlen := congrArg List.length (Option.some.inj h)
    have h7 : ("hashed_".data : List Char).length = 7 := rfl
    rw [List.length_append, h7] at hlen
    omega
  · cases hd : d.password <;> simp [process_user_data, hd]
  · intro un q1 q2 us
    simp [register, apply_ite Prod.fst]

/-- C7 witness: processing the payload (testuser, plaintext). -/
theorem password_hashed_never_plaintext_witness :
    (process_user_data ⟨"testuser".data, some "plaintext".data⟩).password =
      some ("hashed_".data ++ "plaintext".data) ∧
    (process_user_data ⟨"testuser".data, some "plaintext".data⟩).password ≠
      (⟨"testuser".data, some "plaintext".data⟩ : UserData).password ∧
    (process_user_data ⟨"testuser".data, some "plaintext".data⟩).username =
      (⟨"testuser".data, some "plaintext".data⟩ : UserData).username ∧
    (∀ un q1 q2 us, (register un q1 us).1 = (register un q2 us).1) :=
  password_hashed_never_plaintext ⟨"testuser".data, some "plaintext".data⟩
    "plaintext".data rfl

/-- C8 counterexample: the claim quantifies over every content string of
any length, but a content of length 0 (with a non-blank title) is rejected
by create validation. -/
theorem content_any_length_counterexample :
    (validate_note_data { title := some "Test".data, content := some [] }).1 = false := by
  decide

/-- C8 (amended): no upper bound on content length is enforced: every
input whose title and content are non-blank after trimming is accepted, in
particular a 10000-character content; the 5000-character threshold lives
only in the local helper `validate_content_length`, which rejects that
10000-character content even though create validation accepts it. -/
theorem no_content_length_cap (title content : PyStr)
    (ht : pyStrip title ≠ []) (hc : pyStrip content ≠ []) :
    (validate_note_data ⟨some title, some content, none⟩).1 = true ∧
    (validate_note_data ⟨some "Test".data, some (List.replicate 10000 'x'), none⟩).1 =
      true ∧
    validate_content_length (List.replicate 10000 'x') = false ∧
    validate_content_length "Normal content".data = true := by
  have hx : pyStrip (List.replicate 10000 'x') ≠ [] := by
    rw [Ne, pyStrip_eq_nil_iff]
    intro h
    have hxmem : 'x' ∈ List.replicate 10000 'x' :=
      List.mem_replicate.mpr ⟨by decide, rfl⟩
    exact absurd (h _ hxmem) (by decide)
  have htt : pyStrip ("Test".data) ≠ [] := by decide
  refine ⟨validate_note_data_accepts ht hc, validate_note_data_accepts htt hx, ?_,
    by decide⟩
  have hlen : (List.replicate 10000 'x').length = 10000 := List.length_replicate _ _
  unfold validate_content_length
  rw [hlen]
  decide

/-- C8 amended witness: a short non-blank title and content are accepted;
the 10000-character content is accepted by create validation yet rejected
by the local helper. -/
theorem no_content_length_cap_witness :
    (validate_note_data ⟨some "Test".data, some "Some content".data, none⟩).1 = true ∧
    (validate_note_data ⟨some "Test".data, some (List.replicate 10000 'x'), none⟩).1 =
      true ∧
    validate_content_length (List.replicate 10000 'x') = false ∧
    validate_content_length "Normal content".data = true :=
  no_content_length_cap "Test".data "Some content".data (by decide) (by decide)

end TaskManager
